import Mathlib

/-!
Verification of the wlink probe-control command layer
(`src/commands/control.rs`): payload encoders for the command-group-0x0d
catalog and the two response decoders (`ProbeInfo::from_payload`,
`AttachChipResponse::from_payload`), shallowly embedded in Lean.

Bytes are modelled as `Nat` (with `% 256` where the source casts to `u8`),
byte buffers as `List Nat`, fallible decoding as `Except Error`, and a
possible Rust panic (out-of-bounds indexing / `.unwrap()`) as an outer
`Option`: `none` is a panic, `some r` a normal return of `r`.

The enums `RiscvChip` and `WchLinkVariant`, the error enum, and the
chip-name table live outside the given source tree, so they are modelled
from the spec: the discriminant parsers and the name lookup are taken as
function parameters, and theorems quantify over them.
-/

namespace Wlink

/-- Modelled from the spec: the decode error kinds of §7 —
`InvalidPayloadLength` and `UnknownDiscriminant(byte)` carrying the
offending raw byte.  The error enum itself is not under `src/`. -/
inductive Error where
  | InvalidPayloadLength : Error
  | UnknownDiscriminant : Nat → Error
deriving DecidableEq, Repr

/-- Modelled from the spec: `ProbeVariant` is a closed set of probe
hardware-revision codes; the enum's own definition is not under `src/`.
Only the `Ch549` revision is named by the code in `src/` (the default used
for 3-byte probe-info payloads); the other revisions are abstracted by
their numeric code. -/
inductive WchLinkVariant where
  | Ch549 : WchLinkVariant
  | OtherRevision : Nat → WchLinkVariant
deriving DecidableEq, Repr

/-- Modelled from the spec: `ChipFamily` is a closed set of one-byte chip
family codes; the enum's definition is not under `src/`, so a family is
represented by its numeric discriminant. -/
structure RiscvChip where
  code : Nat
deriving DecidableEq, Repr

/-- The Rust cast `*c as u8` on a chip-family value. -/
def RiscvChip.toByte (c : RiscvChip) : Nat :=
  c.code % 256

/-- §4.1: a discriminant parser returns `Ok` on known codes and
`UnknownDiscriminant` carrying the offending byte on all others. -/
def IsDiscriminantParser {α : Type} (p : Nat → Except Error α) : Prop :=
  ∀ b, (∃ v, p b = .ok v) ∨ p b = .error (.UnknownDiscriminant b)

/-- Rust slice indexing `l[s..e]`: panics (`none`) when out of range. -/
def rustSlice (l : List Nat) (s e : Nat) : Option (List Nat) :=
  if s ≤ e ∧ e ≤ l.length then some ((l.drop s).take (e - s)) else none

/-- Rust `<&[u8] as TryInto<[u8; 4]>>::try_into`: succeeds exactly on
length-4 slices. -/
def sliceToArray4 (l : List Nat) : Option (Nat × Nat × Nat × Nat) :=
  match l with
  | [a, b, c, d] => some (a, b, c, d)
  | _ => none

/-- Rust `u32::from_be_bytes` on four byte values. -/
def u32_from_be_bytes (a b c d : Nat) : Nat :=
  ((a * 256 + b) * 256 + c) * 256 + d

/-! ## The control command catalog -/

/-- GetDeviceVersion (0x0d, 0x01). -/
structure GetProbeInfo where
deriving DecidableEq, Repr

def GetProbeInfo.COMMAND_ID : Nat := 0x0d

def GetProbeInfo.payload (_ : GetProbeInfo) : List Nat := [0x01]

/-- The typed probe-info response. -/
structure ProbeInfo where
  major_version : Nat
  minor_version : Nat
  variant : WchLinkVariant
deriving DecidableEq, Repr

def ProbeInfo.version (p : ProbeInfo) : Nat × Nat :=
  (p.major_version, p.minor_version)

/-- `ProbeInfo::from_payload`, parametric in the (spec-modelled)
`WchLinkVariant::try_from_u8` parser `pv`.  The outer `Option` models a
Rust panic; every `bytes[i]` is guarded, so `none` should be unreachable. -/
def ProbeInfo.from_payload (pv : Nat → Except Error WchLinkVariant)
    (bytes : List Nat) : Option (Except Error ProbeInfo) :=
  if bytes.length < 3 then
    some (.error .InvalidPayloadLength)
  else
    match bytes.get? 0, bytes.get? 1 with
    | some b0, some b1 =>
      if bytes.length = 4 then
        match bytes.get? 2 with
        | some b2 =>
          match pv b2 with
          | .ok v => some (.ok ⟨b0, b1, v⟩)
          | .error e => some (.error e)
        | none => none
      else
        some (.ok ⟨b0, b1, .Ch549⟩)
    | _, _ => none

/-- ?SetChipType (0x0d, 0x02). -/
structure AttachChip where
deriving DecidableEq, Repr

def AttachChip.COMMAND_ID : Nat := 0x0d

def AttachChip.payload (_ : AttachChip) : List Nat := [0x02]

/-- The typed chip-attach response. -/
structure AttachChipResponse where
  chip_family : RiscvChip
  riscvchip : Nat
  chip_id : Nat
deriving DecidableEq, Repr

/-- `AttachChipResponse::from_payload`, parametric in the (spec-modelled)
`RiscvChip::try_from_u8` parser `pf`.  The `.try_into().unwrap()` of the
source is modelled by `sliceToArray4` with `none` as the panic. -/
def AttachChipResponse.from_payload (pf : Nat → Except Error RiscvChip)
    (bytes : List Nat) : Option (Except Error AttachChipResponse) :=
  if bytes.length ≠ 5 then
    some (.error .InvalidPayloadLength)
  else
    match bytes.get? 0 with
    | none => none
    | some b0 =>
      match pf b0 with
      | .error e => some (.error e)
      | .ok fam =>
        match rustSlice bytes 1 5 with
        | none => none
        | some sl =>
          match sliceToArray4 sl with
          | none => none
          | some (a, b, c, d) =>
            some (.ok ⟨fam, b0, u32_from_be_bytes a b c d⟩)

/-- Rust `{:08x}` applied to the `u32` field `chip_id`: eight lowercase
hex digits, zero-padded (exact for every value below `2 ^ 32`). -/
def hex8 (n : Nat) : String :=
  String.mk ((List.range 8).map fun i => Nat.digitChar (n / 16 ^ (7 - i) % 16))

/-- The `Display` impl for `AttachChipResponse`, parametric in the Rust
`Debug` rendering of `RiscvChip` (`fmtFamily`) and in the external
`chips::chip_id_to_chip_name` lookup, both of which live outside `src/`.
As a pure function it returns a string and leaves the response value
untouched. -/
def AttachChipResponse.display (fmtFamily : RiscvChip → String)
    (lookup : Nat → Option String) (r : AttachChipResponse) : String :=
  if r.chip_id = 0 then
    fmtFamily r.chip_family
  else
    match lookup r.chip_id with
    | some chip_name =>
      fmtFamily r.chip_family ++ " [" ++ chip_name ++ "] (ChipID: 0x"
        ++ hex8 r.chip_id ++ ")"
    | none =>
      fmtFamily r.chip_family ++ " (ChipID: 0x" ++ hex8 r.chip_id ++ ")"

/-- Erase code flash: `ByPinRST` (erase by reset) or `ByPowerOff`
(erase by power cycle), each carrying the target chip family. -/
inductive EraseCodeFlash where
  | ByPinRST : RiscvChip → EraseCodeFlash
  | ByPowerOff : RiscvChip → EraseCodeFlash
deriving DecidableEq, Repr

def EraseCodeFlash.COMMAND_ID : Nat := 0x0d

def EraseCodeFlash.payload : EraseCodeFlash → List Nat
  | .ByPinRST c => [0x08, c.toByte]
  | .ByPowerOff c => [0x0f, c.toByte]

/-- GetROMRAM (0x0d, 0x04). -/
structure GetChipRomRamSplit where
deriving DecidableEq, Repr

def GetChipRomRamSplit.COMMAND_ID : Nat := 0x0d

def GetChipRomRamSplit.payload (_ : GetChipRomRamSplit) : List Nat := [0x04]

/-- SetROMRAM (0x0d, 0x05), carrying the split value byte. -/
structure SetChipRomRamSplit where
  val : Nat
deriving DecidableEq, Repr

def SetChipRomRamSplit.COMMAND_ID : Nat := 0x0d

def SetChipRomRamSplit.payload (s : SetChipRomRamSplit) : List Nat :=
  [0x05, s.val]

/-- Detach chip (0x0d, 0xff). -/
structure OptEnd where
deriving DecidableEq, Repr

def OptEnd.COMMAND_ID : Nat := 0x0d

def OptEnd.payload (_ : OptEnd) : List Nat := [0xff]

/-- Power-rail control, four zero-parameter variants. -/
inductive SetPower where
  | Enable3V3 : SetPower
  | Disable3V3 : SetPower
  | Enable5V : SetPower
  | Disable5V : SetPower
deriving DecidableEq, Repr

def SetPower.COMMAND_ID : Nat := 0x0d

def SetPower.payload : SetPower → List Nat
  | .Enable3V3 => [0x09]
  | .Disable3V3 => [0x0A]
  | .Enable5V => [0x0B]
  | .Disable5V => [0x0C]

/-! ## Sample instantiations of the spec-modelled parameters,
used only to evaluate the parametric theorems at concrete inputs. -/

/-- A concrete discriminant parser for probe variants, used in witnesses. -/
def pvSample : Nat → Except Error WchLinkVariant :=
  fun b => if b = 1 then .ok .Ch549
    else if b = 2 then .ok (.OtherRevision 2)
    else .error (.UnknownDiscriminant b)

/-- A concrete discriminant parser for chip families, used in witnesses. -/
def pfSample : Nat → Except Error RiscvChip :=
  fun b => if b ≤ 9 then .ok ⟨b⟩ else .error (.UnknownDiscriminant b)

/-- A concrete family renderer, used in witnesses. -/
def fmtSample : RiscvChip → String :=
  fun c => "Family" ++ toString c.code

/-- A concrete chip-name lookup, used in witnesses. -/
def lookupSample : Nat → Option String :=
  fun id => if id = 0x01020304 then some "CH32V307VCT6" else none

end Wlink

namespace Wlink

/-! ## Helper lemmas -/

lemma probe_from_payload_isSome (pv : Nat → Except Error WchLinkVariant)
    (b : List Nat) : (ProbeInfo.from_payload pv b).isSome := by
  rcases b with _ | ⟨x0, b⟩
  · simp [ProbeInfo.from_payload]
  rcases b with _ | ⟨x1, b⟩
  · simp [ProbeInfo.from_payload]
  rcases b with _ | ⟨x2, rest⟩
  · simp [ProbeInfo.from_payload]
  by_cases h4 : (x0 :: x1 :: x2 :: rest).length = 4
  · have h1 : rest.length = 1 := by
      simp only [List.length_cons] at h4
      omega
    obtain ⟨x3, rfl⟩ := List.length_eq_one.mp h1
    cases hpv : pv x2 <;> simp [ProbeInfo.from_payload, hpv]
  · have h1 : rest.length ≠ 1 := by
      simp only [List.length_cons] at h4
      omega
    have h3 : ¬ rest.length + 1 + 1 + 1 < 3 := by omega
    simp [ProbeInfo.from_payload, h1, h3]

lemma attach_from_payload_isSome (pf : Nat → Except Error RiscvChip)
    (b : List Nat) : (AttachChipResponse.from_payload pf b).isSome := by
  by_cases h5 : b.length = 5
  · rcases b with _ | ⟨x0, _ | ⟨x1, _ | ⟨x2, _ | ⟨x3, _ | ⟨x4, rest⟩⟩⟩⟩⟩ <;>
      simp only [List.length_cons, List.length_nil] at h5
    · omega
    · omega
    · omega
    · omega
    · omega
    · obtain rfl : rest = [] := List.eq_nil_of_length_eq_zero (by omega)
      cases hpf : pf x0 <;>
        simp [AttachChipResponse.from_payload, hpf, rustSlice, sliceToArray4]
  · simp [AttachChipResponse.from_payload, h5]

/-! ## Claims -/

/-- C1: for every chip family `c`, the erase-by-reset payload is exactly
`[0x08, c as u8]` and the erase-by-power-cycle payload is exactly
`[0x0f, c as u8]`; both are 2 bytes long, not the longer documented frame. -/
theorem erase_payloads (c : RiscvChip) :
    EraseCodeFlash.payload (.ByPinRST c) = [0x08, c.toByte]
      ∧ EraseCodeFlash.payload (.ByPowerOff c) = [0x0f, c.toByte]
      ∧ (EraseCodeFlash.payload (.ByPinRST c)).length = 2
      ∧ (EraseCodeFlash.payload (.ByPowerOff c)).length = 2 :=
  ⟨rfl, rfl, rfl, rfl⟩

/-- C4: each `SetPower` variant encodes to exactly one byte:
0x09, 0x0A, 0x0B, 0x0C respectively. -/
theorem set_power_payloads :
    SetPower.payload .Enable3V3 = [0x09]
      ∧ SetPower.payload .Disable3V3 = [0x0A]
      ∧ SetPower.payload .Enable5V = [0x0B]
      ∧ SetPower.payload .Disable5V = [0x0C]
      ∧ ∀ p : SetPower, (SetPower.payload p).length = 1 := by
  refine ⟨rfl, rfl, rfl, rfl, ?_⟩
  intro p
  cases p <;> rfl

/-- C5: for every byte value `v` (0–255, including out-of-range split
values 4–255) the set-ROM/RAM-split payload is exactly `[0x05, v]`:
the value byte passes through unchanged, with no validation and no
error path. -/
theorem set_rom_ram_split_payload (v : Nat) (h : v < 256) :
    SetChipRomRamSplit.payload ⟨v⟩ = [0x05, v]
      ∧ (SetChipRomRamSplit.payload ⟨v⟩).length = 2 :=
  ⟨rfl, rfl⟩

/-- Witness for C5 at the out-of-range split value 200. -/
theorem set_rom_ram_split_payload_witness :
    SetChipRomRamSplit.payload ⟨200⟩ = [0x05, 200]
      ∧ (SetChipRomRamSplit.payload ⟨200⟩).length = 2 :=
  set_rom_ram_split_payload 200 (by decide)

/-- C2: probe-info decode.  Fewer than 3 bytes fails with
`InvalidPayloadLength`; otherwise major/minor come from bytes 0 and 1.
With exactly 4 bytes the variant is parsed from byte 2, propagating the
parser's failure (`UnknownDiscriminant` for unknown codes).  For every
other length ≥ 3 the variant is the default earliest hardware revision,
byte 2 is never parsed (the result does not depend on the parser `pv`),
so no `UnknownDiscriminant` error can occur there. -/
theorem probe_info_decode (pv : Nat → Except Error WchLinkVariant)
    (b : List Nat) :
    (b.length < 3 →
      ProbeInfo.from_payload pv b = some (.error .InvalidPayloadLength))
    ∧ (∀ x0 x1 x2 rest, b = x0 :: x1 :: x2 :: rest →
        (rest.length = 1 →
          ProbeInfo.from_payload pv b
            = some ((pv x2).map fun v => ⟨x0, x1, v⟩))
        ∧ (rest.length ≠ 1 →
          ProbeInfo.from_payload pv b = some (.ok ⟨x0, x1, .Ch549⟩))) := by
  constructor
  · intro h
    simp [ProbeInfo.from_payload, h]
  · rintro x0 x1 x2 rest rfl
    constructor
    · intro h1
      obtain ⟨x3, rfl⟩ := List.length_eq_one.mp h1
      cases hpv : pv x2 <;>
        simp [ProbeInfo.from_payload, hpv, Except.map]
    · intro h1
      have h3 : ¬ rest.length + 1 + 1 + 1 < 3 := by omega
      simp [ProbeInfo.from_payload, h1, h3]

/-- Witness for C2: a 3-byte payload decodes with the default variant, a
2-byte payload fails with `InvalidPayloadLength`, and a 4-byte payload
with an unknown variant code fails with `UnknownDiscriminant`. -/
theorem probe_info_decode_witness :
    ProbeInfo.from_payload pvSample [7, 2, 3] = some (.ok ⟨7, 2, .Ch549⟩)
      ∧ ProbeInfo.from_payload pvSample [7, 2]
        = some (.error .InvalidPayloadLength)
      ∧ ProbeInfo.from_payload pvSample [7, 2, 99, 0]
        = some (.error (.UnknownDiscriminant 99)) := by
  refine ⟨?_, ?_, ?_⟩
  · exact ((probe_info_decode pvSample [7, 2, 3]).2 7 2 3 [] rfl).2 (by decide)
  · exact (probe_info_decode pvSample [7, 2]).1 (by decide)
  · exact (((probe_info_decode pvSample [7, 2, 99, 0]).2 7 2 99 [0]
      rfl).1 (by decide)).trans rfl

/-- C3: attach decode.  A payload whose length is not exactly 5 fails
with `InvalidPayloadLength`; otherwise byte 0 is parsed as the chip
family with the parser's failure propagated, the raw byte 0 is retained
verbatim in the result, and `chip_id` is the big-endian 32-bit integer
of bytes 1–4 — so `[f,1,2,3,4]` gives `0x01020304` and `[f,0,0,0,0]`
gives `0`. -/
theorem attach_decode (pf : Nat → Except Error RiscvChip) (b : List Nat) :
    (b.length ≠ 5 →
      AttachChipResponse.from_payload pf b
        = some (.error .InvalidPayloadLength))
    ∧ (∀ x0 x1 x2 x3 x4, b = [x0, x1, x2, x3, x4] →
        (∀ e, pf x0 = .error e →
          AttachChipResponse.from_payload pf b = some (.error e))
        ∧ (∀ fam, pf x0 = .ok fam →
          AttachChipResponse.from_payload pf b
            = some (.ok ⟨fam, x0, u32_from_be_bytes x1 x2 x3 x4⟩)))
    ∧ u32_from_be_bytes 1 2 3 4 = 0x01020304
    ∧ u32_from_be_bytes 0 0 0 0 = 0 := by
  refine ⟨?_, ?_, by decide, by decide⟩
  · intro h
    simp [AttachChipResponse.from_payload, h]
  · rintro x0 x1 x2 x3 x4 rfl
    constructor
    · intro e he
      simp [AttachChipResponse.from_payload, he]
    · intro fam hf
      simp [AttachChipResponse.from_payload, hf, rustSlice, sliceToArray4]

/-- Witness for C3: a valid 5-byte payload, a short payload, and a
payload with an unknown family byte. -/
theorem attach_decode_witness :
    AttachChipResponse.from_payload pfSample [9, 1, 2, 3, 4]
        = some (.ok ⟨⟨9⟩, 9, 0x01020304⟩)
      ∧ AttachChipResponse.from_payload pfSample [9, 1, 2, 3]
        = some (.error .InvalidPayloadLength)
      ∧ AttachChipResponse.from_payload pfSample [0xEE, 0, 0, 0, 0]
        = some (.error (.UnknownDiscriminant 0xEE)) := by
  refine ⟨?_, ?_, ?_⟩
  · exact (((attach_decode pfSample [9, 1, 2, 3, 4]).2.1 9 1 2 3 4
      rfl).2 ⟨9⟩ rfl).trans rfl
  · exact (attach_decode pfSample [9, 1, 2, 3]).1 (by decide)
  · exact ((attach_decode pfSample [0xEE, 0, 0, 0, 0]).2.1 0xEE 0 0 0 0
      rfl).1 (.UnknownDiscriminant 0xEE) rfl

/-- C6: display of an attach result.  `chip_id = 0` renders only the
chip-family identifier; a nonzero id with a known name renders
family, bracketed name and the zero-padded 8-digit lowercase hex id;
with no known name the bracketed part is absent.  The hex field is always
exactly 8 characters, and `display` is a pure function of the response
value, so formatting cannot modify the underlying typed values. -/
theorem attach_display (fmtFamily : RiscvChip → String)
    (lookup : Nat → Option String) (r : AttachChipResponse) :
    (r.chip_id = 0 →
      AttachChipResponse.display fmtFamily lookup r = fmtFamily r.chip_family)
    ∧ (r.chip_id ≠ 0 → ∀ chip_name, lookup r.chip_id = some chip_name →
      AttachChipResponse.display fmtFamily lookup r
        = fmtFamily r.chip_family ++ " [" ++ chip_name ++ "] (ChipID: 0x"
            ++ hex8 r.chip_id ++ ")")
    ∧ (r.chip_id ≠ 0 → lookup r.chip_id = none →
      AttachChipResponse.display fmtFamily lookup r
        = fmtFamily r.chip_family ++ " (ChipID: 0x" ++ hex8 r.chip_id ++ ")")
    ∧ (hex8 r.chip_id).length = 8 := by
  refine ⟨?_, ?_, ?_, ?_⟩
  · intro h
    simp [AttachChipResponse.display, h]
  · intro h chip_name hl
    simp [AttachChipResponse.display, h, hl]
  · intro h hl
    simp [AttachChipResponse.display, h, hl]
  · simp [hex8, String.length]

/-- Witness for C6: the three display shapes at concrete responses,
with `lookupSample` knowing the name of chip id `0x01020304` only. -/
theorem attach_display_witness :
    AttachChipResponse.display fmtSample lookupSample ⟨⟨5⟩, 5, 0x01020304⟩
        = "Family5 [CH32V307VCT6] (ChipID: 0x01020304)"
      ∧ AttachChipResponse.display fmtSample lookupSample ⟨⟨5⟩, 5, 0x1234⟩
        = "Family5 (ChipID: 0x00001234)"
      ∧ AttachChipResponse.display fmtSample lookupSample ⟨⟨5⟩, 5, 0⟩
        = "Family5" := by
  refine ⟨?_, ?_, ?_⟩
  · exact ((attach_display fmtSample lookupSample ⟨⟨5⟩, 5, 0x01020304⟩).2.1
      (by decide) "CH32V307VCT6" (by decide)).trans (by decide)
  · exact ((attach_display fmtSample lookupSample ⟨⟨5⟩, 5, 0x1234⟩).2.2.1
      (by decide) (by decide)).trans (by decide)
  · exact ((attach_display fmtSample lookupSample ⟨⟨5⟩, 5, 0⟩).1
      rfl).trans (by decide)

/-- C7: both response decoders are total and never reach a panic: for
every byte list the result is `some` — either a typed value or one of the
two decode errors (`Error` has no other constructor).  In particular the
`none` branch modelling the attach decoder's `.try_into().unwrap()` is
unreachable, being guarded by the exact-length-5 check. -/
theorem decoders_total (pv : Nat → Except Error WchLinkVariant)
    (pf : Nat → Except Error RiscvChip) (b : List Nat) :
    (ProbeInfo.from_payload pv b).isSome
      ∧ (AttachChipResponse.from_payload pf b).isSome :=
  ⟨probe_from_payload_isSome pv b, attach_from_payload_isSome pf b⟩

/-- C9: whenever the attach decode succeeds, the retained raw byte is the
first input byte and parsing it again yields exactly the stored chip
family: the two fields can never disagree. -/
theorem attach_result_consistent (pf : Nat → Except Error RiscvChip)
    (b : List Nat) (r : AttachChipResponse)
    (h : AttachChipResponse.from_payload pf b = some (.ok r)) :
    b.get? 0 = some r.riscvchip ∧ pf r.riscvchip = .ok r.chip_family := by
  obtain ⟨rfam, rraw, rid⟩ := r
  by_cases h5 : b.length = 5
  · rcases b with _ | ⟨x0, _ | ⟨x1, _ | ⟨x2, _ | ⟨x3, _ | ⟨x4, rest⟩⟩⟩⟩⟩ <;>
      simp only [List.length_cons, List.length_nil] at h5
    · omega
    · omega
    · omega
    · omega
    · omega
    · obtain rfl : rest = [] := List.eq_nil_of_length_eq_zero (by omega)
      rcases hpf : pf x0 with e | fam
      · simp [AttachChipResponse.from_payload, hpf] at h
      · simp [AttachChipResponse.from_payload, hpf, rustSlice,
          sliceToArray4] at h
        obtain ⟨h1, h2, h3⟩ := h
        subst h1
        subst h2
        simp [hpf]
  · simp [AttachChipResponse.from_payload, h5] at h

/-- Witness for C9: the consistency of the decoded result for the
payload `[9, 1, 2, 3, 4]` under the sample family parser. -/
theorem attach_result_consistent_witness :
    ([9, 1, 2, 3, 4] : List Nat).get? 0 = some 9
      ∧ pfSample 9 = .ok ⟨9⟩ :=
  attach_result_consistent pfSample [9, 1, 2, 3, 4] ⟨⟨9⟩, 9, 0x01020304⟩
    rfl

/-- C10: the default variant substituted by the probe-info decode for a
length ≥ 3 other than exactly 4 is specifically `Ch549`, for every
variant parser. -/
theorem probe_info_default_is_Ch549 (pv : Nat → Except Error WchLinkVariant)
    (b : List Nat) (h3 : 3 ≤ b.length) (h4 : b.length ≠ 4) :
    ∃ r, ProbeInfo.from_payload pv b = some (.ok r)
      ∧ r.variant = .Ch549 := by
  rcases b with _ | ⟨x0, _ | ⟨x1, _ | ⟨x2, rest⟩⟩⟩
  · simp at h3
  · simp at h3
  · simp at h3
  · have h1 : rest.length ≠ 1 := by
      simp only [List.length_cons] at h4
      omega
    have h3n : ¬ rest.length + 1 + 1 + 1 < 3 := by omega
    refine ⟨⟨x0, x1, .Ch549⟩, ?_, rfl⟩
    simp [ProbeInfo.from_payload, h1, h3n]

/-- Witness for C10 at the 3-byte payload `[1, 2, 3]`. -/
theorem probe_info_default_is_Ch549_witness :
    ∃ r, ProbeInfo.from_payload pvSample [1, 2, 3] = some (.ok r)
      ∧ r.variant = .Ch549 :=
  probe_info_default_is_Ch549 pvSample [1, 2, 3] (by decide) (by decide)

/-- C8: every command in the control catalog declares the command-group
identifier 0x0d. -/
theorem command_group_is_0x0d :
    GetProbeInfo.COMMAND_ID = 0x0d
      ∧ AttachChip.COMMAND_ID = 0x0d
      ∧ EraseCodeFlash.COMMAND_ID = 0x0d
      ∧ GetChipRomRamSplit.COMMAND_ID = 0x0d
      ∧ SetChipRomRamSplit.COMMAND_ID = 0x0d
      ∧ OptEnd.COMMAND_ID = 0x0d
      ∧ SetPower.COMMAND_ID = 0x0d :=
  ⟨rfl, rfl, rfl, rfl, rfl, rfl, rfl⟩

end Wlink
